import Mathlib

/-
Verification of the `simple-drone-control` core: the 3D vector/rotation
algebra (`src/sdc/modules/core/vector.py`) and the track statistics
recorder (`src/sdc/modules/api/statistics.py`).

Modelling choices:
- Python runtime values are modelled by the inductive `PyVal`, which carries
  the kind information the `isinstance` checks in the source inspect.
  Python's `bool` is a subclass of `int`, so `isinstance(b, (int, float))`
  is true for booleans; `isInstIntFloat` reproduces that.
- Python floats are IEEE-754 binary64 values; every such value (in the
  normal range) is a rational, so components are carried as `ℚ` and the
  arithmetic operators that create new values round each exact result to
  the nearest binary64 value with `fl` (round-to-nearest, ties-to-even,
  53 significant bits). Python ints are `ℤ`; `float(value)` becomes
  `PyVal.toFloat`.
- A `Rotator3D` instance is a Python object of a subclass of `Vector3D`;
  `isInstVector3D` is therefore true for both constructors while
  `isInstRotator3D` is true only for `.rot`.
- Methods that can raise (`raise TypeError(...)` / `raise
  NotImplementedError(...)`) return `Except String α`; the error string is
  the message built in the source. Mutating methods of `TrackStatistics`
  are modelled by explicit state passing: an `.error` result means the
  call raised before any mutation, so the state is unchanged.
- The degree-to-radian conversion of `Rotator3D.__init__` (via
  `np.deg2rad`) is modelled over `ℝ` in a separate real-valued model,
  since `π` is not rational.
-/

namespace SDC

/-- Components of a `Vector3D` instance: Python floats, modelled as `ℚ`.
The source stores `float(value)` into `_x`, `_y`, `_z`. -/
structure Vector3D where
  x : ℚ
  y : ℚ
  z : ℚ
deriving DecidableEq

/-- Components of a `Rotator3D` instance (radian values, stored through the
inherited setters). Kept as a separate structure so that `isinstance`
checks can distinguish the two classes. -/
structure Rotator3D where
  x : ℚ
  y : ℚ
  z : ℚ
deriving DecidableEq

/-- Python runtime values, tagged with the kind information the
`isinstance` checks in the source inspect. -/
inductive PyVal where
  | int (n : ℤ)
  | float (q : ℚ)
  | bool (b : Bool)
  | str (s : String)
  | none
  | vec (v : Vector3D)
  | rot (r : Rotator3D)
deriving DecidableEq

/-- Python's `type(value).__name__`, used in the error messages. -/
def PyVal.typeName : PyVal → String
  | .int _ => "int"
  | .float _ => "float"
  | .bool _ => "bool"
  | .str _ => "str"
  | .none => "NoneType"
  | .vec _ => "Vector3D"
  | .rot _ => "Rotator3D"

/-- Python's `isinstance(value, (int, float))`. `bool` is a subclass of
`int` in Python, so booleans satisfy this check. -/
def PyVal.isInstIntFloat : PyVal → Bool
  | .int _ => true
  | .float _ => true
  | .bool _ => true
  | _ => false

/-- Python's `isinstance(value, bool)`. Only booleans satisfy it (`int` is
the superclass, not a subclass, of `bool`). -/
def PyVal.isInstBool : PyVal → Bool
  | .bool _ => true
  | _ => false

/-- Python's `isinstance(value, Vector3D)`. `Rotator3D` is a subclass of
`Vector3D`, so rotator instances satisfy this check. -/
def PyVal.isInstVector3D : PyVal → Bool
  | .vec _ => true
  | .rot _ => true
  | _ => false

/-- Python's `isinstance(value, Rotator3D)`. -/
def PyVal.isInstRotator3D : PyVal → Bool
  | .rot _ => true
  | _ => false

/-- Python's `float(value)` on values satisfying `isinstance(value,
(int, float))`; `float(True) = 1.0`, `float(False) = 0.0`. -/
def PyVal.toFloat : PyVal → ℚ
  | .int n => n
  | .float q => q
  | .bool b => if b then 1 else 0
  | _ => 0

/-- The `TypeError` message pattern used by every validating setter in the
source: `expected type E for C.a but got T instead`. -/
def typeErrorMsg (expected cls attr : String) (value : PyVal) : String :=
  "expected type " ++ expected ++ " for " ++ cls ++ "." ++ attr
    ++ " but got " ++ value.typeName ++ " instead"

/-- `Vector3D.x` setter (vector.py lines 57-71): validates
`isinstance(value, (int, float))`, raises `TypeError` otherwise, stores
`float(value)`. -/
def Vector3D.setX (v : Vector3D) (value : PyVal) : Except String Vector3D :=
  if value.isInstIntFloat then .ok { v with x := value.toFloat }
  else .error (typeErrorMsg "Union[int, float]" "Vector3D" "x" value)

/-- `Vector3D.y` setter (vector.py lines 82-96). -/
def Vector3D.setY (v : Vector3D) (value : PyVal) : Except String Vector3D :=
  if value.isInstIntFloat then .ok { v with y := value.toFloat }
  else .error (typeErrorMsg "Union[int, float]" "Vector3D" "y" value)

/-- `Vector3D.z` setter (vector.py lines 107-121). -/
def Vector3D.setZ (v : Vector3D) (value : PyVal) : Except String Vector3D :=
  if value.isInstIntFloat then .ok { v with z := value.toFloat }
  else .error (typeErrorMsg "Union[int, float]" "Vector3D" "z" value)

/-- `Vector3D.__init__` (vector.py lines 31-46): assigns `self.x = x`,
`self.y = y`, `self.z = z` in order, each through the validating setter. -/
def Vector3D.init (x y z : PyVal) : Except String Vector3D :=
  (Vector3D.mk 0 0 0).setX x >>= fun v => v.setY y >>= fun v => v.setZ z

/-- Floor of the base-2 logarithm of a positive natural number, by fueled
structural recursion (the fuel `n` itself always suffices, since the
recursion halves `n` each step). -/
def log2fuel : Nat → Nat → Nat
  | 0, _ => 0
  | f + 1, n => if n ≤ 1 then 0 else log2fuel f (n / 2) + 1

/-- Decide `2^e ≤ q` for a positive rational `q`, using only integer
arithmetic on the numerator and denominator: for `e ≥ 0` this is
`2^e * den ≤ num`, otherwise `den ≤ num * 2^(-e)`. -/
def pow2le (e : ℤ) (q : ℚ) : Bool :=
  if 0 ≤ e then decide (((2 ^ e.toNat : ℕ) : ℤ) * (q.den : ℤ) ≤ q.num)
  else decide ((q.den : ℤ) ≤ q.num * ((2 ^ (-e).toNat : ℕ) : ℤ))

/-- Binary exponent of a positive rational: the unique `e` with
`2^e ≤ q < 2^(e+1)`. The bit lengths of numerator and denominator give an
estimate that is at most one too large; one comparison fixes it. -/
def ilog2q (q : ℚ) : ℤ :=
  let e0 : ℤ := (log2fuel q.num.natAbs q.num.natAbs : ℤ) - (log2fuel q.den q.den : ℤ)
  if pow2le e0 q then e0 else e0 - 1

/-- Round the fraction `N / D` (with `D > 0`) to the nearest integer,
ties to the even integer — the rounding direction of IEEE-754 binary64
arithmetic. `f` is the floor of the fraction and `r2` twice the
remainder, so comparing `r2` with `D` compares the fractional part with
one half. -/
def rndNE (N D : ℤ) : ℤ :=
  let f := N.fdiv D
  let r2 := 2 * (N - f * D)
  if r2 < D then f else if D < r2 then f + 1 else if f % 2 = 0 then f else f + 1

/-- Round a positive rational to the nearest IEEE-754 binary64 value: the
significand `q * 2^(52-e)` is rounded to the nearest integer (ties to
even) and scaled back by `2^(e-52)`; 53 significant bits, normal range
(every value exercised here is far from both overflow and the subnormal
range). -/
def flPos (q : ℚ) : ℚ :=
  let s := 52 - ilog2q q
  if 0 ≤ s then
    mkRat (rndNE (q.num * ((2 ^ s.toNat : ℕ) : ℤ)) (q.den : ℤ)) (2 ^ s.toNat)
  else
    mkRat (rndNE q.num ((q.den : ℤ) * ((2 ^ (-s).toNat : ℕ) : ℤ))
      * ((2 ^ (-s).toNat : ℕ) : ℤ)) 1

/-- Round a rational to the nearest IEEE-754 binary64 value. Python float
arithmetic produces the exact result of each operation rounded by this
function; a decimal float literal such as `0.1` denotes `fl (mkRat 1 10)`. -/
def fl (q : ℚ) : ℚ :=
  if q.num = 0 then 0
  else if q.num < 0 then -(flPos (-q))
  else flPos q

/-- `Vector3D.__add__` (vector.py lines 131-144): component-wise sum of
Python floats — the exact sum of each component pair, rounded to the
nearest binary64 value. The rounded components are floats, so the
validating constructor of the result always succeeds. -/
def Vector3D.add (a b : Vector3D) : Vector3D :=
  ⟨fl (a.x + b.x), fl (a.y + b.y), fl (a.z + b.z)⟩

/-- `Vector3D.__sub__` (vector.py lines 146-159): component-wise
difference of Python floats, each exact difference rounded to the nearest
binary64 value. -/
def Vector3D.sub (a b : Vector3D) : Vector3D :=
  ⟨fl (a.x - b.x), fl (a.y - b.y), fl (a.z - b.z)⟩

/-- `Vector3D.__mul__` (vector.py lines 161-177): scalar multiplication;
raises `TypeError` when the operand is not `isinstance(other, (int,
float))`. -/
def Vector3D.mul (a : Vector3D) (other : PyVal) : Except String Vector3D :=
  if other.isInstIntFloat then
    .ok ⟨a.x * other.toFloat, a.y * other.toFloat, a.z * other.toFloat⟩
  else .error "only scalars are supported for multiplication"

/-- `Vector3D.__eq__` (vector.py lines 356-369): exact component-wise
equality, returned as a Python bool. -/
def Vector3D.beq (a b : Vector3D) : Bool :=
  a.x == b.x && a.y == b.y && a.z == b.z

/-- `Vector3D.__lt__` (vector.py lines 386-395): unconditionally raises
`NotImplementedError`, for every operand. -/
def Vector3D.lt (_v : Vector3D) (_other : PyVal) : Except String Bool :=
  .error "< operation not supported for Vector3D"

/-- `Vector3D.__le__` (vector.py lines 397-406). -/
def Vector3D.le (_v : Vector3D) (_other : PyVal) : Except String Bool :=
  .error "<= operation not supported for Vector3D"

/-- `Vector3D.__gt__` (vector.py lines 408-417). -/
def Vector3D.gt (_v : Vector3D) (_other : PyVal) : Except String Bool :=
  .error "> operation not supported for Vector3D"

/-- `Vector3D.__ge__` (vector.py lines 419-428). -/
def Vector3D.ge (_v : Vector3D) (_other : PyVal) : Except String Bool :=
  .error ">= operation not supported for Vector3D"

/-- View a `Rotator3D` instance through its `Vector3D` superclass: the
inherited methods act on the same stored components. -/
def Rotator3D.toVector3D (r : Rotator3D) : Vector3D :=
  ⟨r.x, r.y, r.z⟩

/-- `Rotator3D.__lt__`: inherited unchanged from `Vector3D`, message
included (the string names `Vector3D` literally in the source). -/
def Rotator3D.lt (r : Rotator3D) (other : PyVal) : Except String Bool :=
  r.toVector3D.lt other

/-- `Rotator3D.__le__`: inherited unchanged from `Vector3D`. -/
def Rotator3D.le (r : Rotator3D) (other : PyVal) : Except String Bool :=
  r.toVector3D.le other

/-- `Rotator3D.__gt__`: inherited unchanged from `Vector3D`. -/
def Rotator3D.gt (r : Rotator3D) (other : PyVal) : Except String Bool :=
  r.toVector3D.gt other

/-- `Rotator3D.__ge__`: inherited unchanged from `Vector3D`. -/
def Rotator3D.ge (r : Rotator3D) (other : PyVal) : Except String Bool :=
  r.toVector3D.ge other

/-- State of a `TrackStatistics` instance (statistics.py lines 15-34).
`timestep` and `distance_to_end` are kept as `PyVal` to record whether an
`int` or a `float` is stored; `data` holds the appended triples exactly as
passed. -/
structure TrackStatistics where
  timestep : PyVal
  waypoints : List Vector3D
  is_completed : Bool
  distance_to_end : PyVal
  data : List (PyVal × PyVal × PyVal)
deriving DecidableEq

/-- `TrackStatistics.timestep` setter (statistics.py lines 45-59):
validates `isinstance(value, (int, float))` and stores `value` itself —
note: no `float(...)` coercion, unlike the other numeric setters. -/
def TrackStatistics.set_timestep (s : TrackStatistics) (value : PyVal) :
    Except String TrackStatistics :=
  if value.isInstIntFloat then .ok { s with timestep := value }
  else .error (typeErrorMsg "Union[int, float]" "TrackStatistics" "timestep" value)

/-- `TrackStatistics.is_completed` setter (statistics.py lines 79-93):
requires `isinstance(value, bool)` and stores the boolean unchanged. -/
def TrackStatistics.set_is_completed (s : TrackStatistics) (value : PyVal) :
    Except String TrackStatistics :=
  match value with
  | .bool b => .ok { s with is_completed := b }
  | v => .error (typeErrorMsg "bool" "TrackStatistics" "is_completed" v)

/-- `TrackStatistics.distance_to_end` setter (statistics.py lines
104-118): validates `isinstance(value, (int, float))` and stores
`float(value)`. -/
def TrackStatistics.set_distance_to_end (s : TrackStatistics) (value : PyVal) :
    Except String TrackStatistics :=
  if value.isInstIntFloat then
    .ok { s with distance_to_end := .float value.toFloat }
  else .error (typeErrorMsg "Union[int, float]" "TrackStatistics" "distance_to_end" value)

/-- `TrackStatistics.__init__` (statistics.py lines 17-34): assigns
`self.timestep = timestep` through the validating setter, copies
`track.waypoints`, then directly assigns `_is_completed = False`,
`_distance_to_end = 0` (the Python int `0`, bypassing the setter and its
float coercion) and `_data = []`. -/
def TrackStatistics.init (track_waypoints : List Vector3D) (timestep : PyVal) :
    Except String TrackStatistics :=
  if timestep.isInstIntFloat then
    .ok { timestep := timestep, waypoints := track_waypoints,
          is_completed := false, distance_to_end := .int 0, data := [] }
  else .error (typeErrorMsg "Union[int, float]" "TrackStatistics" "timestep" timestep)

/-- `TrackStatistics.add_data` (statistics.py lines 130-164): checks
`isinstance(position, Vector3D)`, then `isinstance(rotation, Rotator3D)`,
then `isinstance(speed, (int, float))`, raising on the first failure;
only after all three checks does it append the triple to `_data`. -/
def TrackStatistics.add_data (s : TrackStatistics)
    (position rotation speed : PyVal) : Except String TrackStatistics :=
  if ¬ position.isInstVector3D then
    .error ("expected type Vector3D for TrackStatistics.add_data but got "
      ++ position.typeName ++ " instead")
  else if ¬ rotation.isInstRotator3D then
    .error ("expected type Rotator3D for TrackStatistics.add_data but got "
      ++ rotation.typeName ++ " instead")
  else if ¬ speed.isInstIntFloat then
    .error ("expected type Union[int, float] for TrackStatistics.add_data but got "
      ++ speed.typeName ++ " instead")
  else
    .ok { s with data := s.data ++ [(position, rotation, speed)] }

/-- Real-valued model of the stored components of a `Rotator3D`, used for
the degree-to-radian conversion, whose exact result involves `π`. -/
structure Rotator3DReal where
  x : ℝ
  y : ℝ
  z : ℝ

/-- `np.deg2rad(x) = x * (π / 180)`. -/
noncomputable def deg2rad (x : ℝ) : ℝ := x * (Real.pi / 180)

/-- `Rotator3D.__init__` (vector.py lines 483-498): converts each degree
input to radians with `np.deg2rad` and assigns the result through the
inherited validating/coercing `Vector3D` setters (the converted value is
a numpy float, a subclass of Python `float`, so validation passes and the
coercion stores it unchanged). -/
noncomputable def Rotator3D.initReal (x y z : ℝ) : Rotator3DReal :=
  ⟨deg2rad x, deg2rad y, deg2rad z⟩

/-- A concrete `TrackStatistics` state used to instantiate theorems. -/
def stats0 : TrackStatistics :=
  { timestep := PyVal.float 1, waypoints := [], is_completed := false,
    distance_to_end := PyVal.int 0, data := [] }

/-- Claim C1: every relational comparison on `Vector3D` (and on its
subclass `Rotator3D`) raises the unsupported-operation error for every
operand, and never returns a boolean. -/
theorem comparisons_always_raise :
    ∀ (v : Vector3D) (r : Rotator3D) (other : PyVal),
      v.lt other = .error "< operation not supported for Vector3D" ∧
      v.le other = .error "<= operation not supported for Vector3D" ∧
      v.gt other = .error "> operation not supported for Vector3D" ∧
      v.ge other = .error ">= operation not supported for Vector3D" ∧
      r.lt other = .error "< operation not supported for Vector3D" ∧
      r.le other = .error "<= operation not supported for Vector3D" ∧
      r.gt other = .error "> operation not supported for Vector3D" ∧
      r.ge other = .error ">= operation not supported for Vector3D" ∧
      (∀ b : Bool, v.lt other ≠ .ok b ∧ v.le other ≠ .ok b ∧
        v.gt other ≠ .ok b ∧ v.ge other ≠ .ok b ∧ r.lt other ≠ .ok b ∧
        r.le other ≠ .ok b ∧ r.gt other ≠ .ok b ∧ r.ge other ≠ .ok b) := by
  intro v r other
  refine ⟨rfl, rfl, rfl, rfl, rfl, rfl, rfl, rfl, fun b => ?_⟩
  refine ⟨?_, ?_, ?_, ?_, ?_, ?_, ?_, ?_⟩ <;>
    simp [Vector3D.lt, Vector3D.le, Vector3D.gt, Vector3D.ge,
      Rotator3D.lt, Rotator3D.le, Rotator3D.gt, Rotator3D.ge]

/-- Claim C1 witness: the comparison operators raise on a concrete vector,
rotator and operand. -/
theorem comparisons_always_raise_witness :
    (Vector3D.mk 0 0 0).lt (.int 1) = .error "< operation not supported for Vector3D" ∧
    (Vector3D.mk 0 0 0).le (.vec ⟨1, 1, 1⟩) =
      .error "<= operation not supported for Vector3D" ∧
    (Rotator3D.mk 0 0 0).gt (.rot ⟨1, 1, 1⟩) =
      .error "> operation not supported for Vector3D" ∧
    (Rotator3D.mk 0 0 0).ge (.str "x") =
      .error ">= operation not supported for Vector3D" := by
  refine ⟨?_, ?_, ?_, ?_⟩
  · exact (comparisons_always_raise ⟨0, 0, 0⟩ ⟨0, 0, 0⟩ (.int 1)).1
  · exact (comparisons_always_raise ⟨0, 0, 0⟩ ⟨0, 0, 0⟩ (.vec ⟨1, 1, 1⟩)).2.1
  · exact (comparisons_always_raise ⟨0, 0, 0⟩ ⟨0, 0, 0⟩ (.rot ⟨1, 1, 1⟩)).2.2.2.2.2.2.1
  · exact (comparisons_always_raise ⟨0, 0, 0⟩ ⟨0, 0, 0⟩ (.str "x")).2.2.2.2.2.2.2.1

/-- Claim C2: `add_data` validates position, then rotation, then speed, in
that order, raising a type-mismatch error at the first violation found; a
failing call raises before the append so the log is unchanged (an `.error`
result carries no mutated state), and a passing call appends exactly the
one triple at the end of `data`, all other fields unchanged. -/
theorem add_data_validation_order_and_append :
    ∀ (s : TrackStatistics) (position rotation speed : PyVal),
      (position.isInstVector3D = false →
        s.add_data position rotation speed =
          .error ("expected type Vector3D for TrackStatistics.add_data but got "
            ++ position.typeName ++ " instead")) ∧
      (position.isInstVector3D = true → rotation.isInstRotator3D = false →
        s.add_data position rotation speed =
          .error ("expected type Rotator3D for TrackStatistics.add_data but got "
            ++ rotation.typeName ++ " instead")) ∧
      (position.isInstVector3D = true → rotation.isInstRotator3D = true →
        speed.isInstIntFloat = false →
        s.add_data position rotation speed =
          .error ("expected type Union[int, float] for TrackStatistics.add_data but got "
            ++ speed.typeName ++ " instead")) ∧
      (position.isInstVector3D = true → rotation.isInstRotator3D = true →
        speed.isInstIntFloat = true →
        s.add_data position rotation speed =
          .ok { s with data := s.data ++ [(position, rotation, speed)] }) := by
  intro s position rotation speed
  refine ⟨fun h1 => ?_, fun h1 h2 => ?_, fun h1 h2 h3 => ?_, fun h1 h2 h3 => ?_⟩
  · simp [TrackStatistics.add_data, h1]
  · simp [TrackStatistics.add_data, h1, h2]
  · simp [TrackStatistics.add_data, h1, h2, h3]
  · simp [TrackStatistics.add_data, h1, h2, h3]

/-- Claim C2 witness: the scenario of the spec — a plain numeric triple is
rejected with the position type-mismatch error, and a well-typed triple is
appended as the sole new entry of `data`. -/
theorem add_data_validation_order_and_append_witness :
    stats0.add_data (.int 1) (.int 2) (.int 3) =
      .error "expected type Vector3D for TrackStatistics.add_data but got int instead" ∧
    stats0.add_data (.vec ⟨0, 0, 0⟩) (.int 2) (.int 3) =
      .error "expected type Rotator3D for TrackStatistics.add_data but got int instead" ∧
    stats0.add_data (.vec ⟨0, 0, 0⟩) (.rot ⟨0, 0, 0⟩) (.str "fast") =
      .error "expected type Union[int, float] for TrackStatistics.add_data but got str instead" ∧
    stats0.add_data (.vec ⟨0, 0, 0⟩) (.rot ⟨0, 0, 0⟩) (.int 5) =
      .ok { stats0 with data := [(.vec ⟨0, 0, 0⟩, .rot ⟨0, 0, 0⟩, .int 5)] } := by
  refine ⟨?_, ?_, ?_, ?_⟩
  · exact (add_data_validation_order_and_append stats0 (.int 1) (.int 2) (.int 3)).1 rfl
  · exact (add_data_validation_order_and_append stats0
      (.vec ⟨0, 0, 0⟩) (.int 2) (.int 3)).2.1 rfl rfl
  · exact (add_data_validation_order_and_append stats0
      (.vec ⟨0, 0, 0⟩) (.rot ⟨0, 0, 0⟩) (.str "fast")).2.2.1 rfl rfl rfl
  · exact (add_data_validation_order_and_append stats0
      (.vec ⟨0, 0, 0⟩) (.rot ⟨0, 0, 0⟩) (.int 5)).2.2.2 rfl rfl rfl

/-- Claim C3: constructing a `Vector3D` from three numeric values succeeds
and stores exactly `float(a), float(b), float(c)` as the components read
back by `x`, `y`, `z`; a non-numeric component raises a type-mismatch
error naming the offending field and the received kind (the fields are
assigned in order `x`, `y`, `z`, so the first offending field is named). -/
theorem vector3D_construction_coercion_and_validation :
    ∀ (a b c : PyVal),
      (a.isInstIntFloat = true → b.isInstIntFloat = true → c.isInstIntFloat = true →
        Vector3D.init a b c = .ok ⟨a.toFloat, b.toFloat, c.toFloat⟩) ∧
      (a.isInstIntFloat = false →
        Vector3D.init a b c =
          .error (typeErrorMsg "Union[int, float]" "Vector3D" "x" a)) ∧
      (a.isInstIntFloat = true → b.isInstIntFloat = false →
        Vector3D.init a b c =
          .error (typeErrorMsg "Union[int, float]" "Vector3D" "y" b)) ∧
      (a.isInstIntFloat = true → b.isInstIntFloat = true → c.isInstIntFloat = false →
        Vector3D.init a b c =
          .error (typeErrorMsg "Union[int, float]" "Vector3D" "z" c)) := by
  intro a b c
  refine ⟨fun h1 h2 h3 => ?_, fun h1 => ?_, fun h1 h2 => ?_, fun h1 h2 h3 => ?_⟩
  · simp [Vector3D.init, Vector3D.setX, Vector3D.setY, Vector3D.setZ,
      Bind.bind, Except.bind, h1, h2, h3]
  · simp [Vector3D.init, Vector3D.setX, Vector3D.setY, Vector3D.setZ,
      Bind.bind, Except.bind, h1]
  · simp [Vector3D.init, Vector3D.setX, Vector3D.setY, Vector3D.setZ,
      Bind.bind, Except.bind, h1, h2]
  · simp [Vector3D.init, Vector3D.setX, Vector3D.setY, Vector3D.setZ,
      Bind.bind, Except.bind, h1, h2, h3]

/-- Claim C3 witness: `Vector3D(2, 0.5, -3)` reads back `(2.0, 0.5,
-3.0)`, and `Vector3D("a", 0, 0)` raises the type-mismatch error naming
field `x` and kind `str`. -/
theorem vector3D_construction_coercion_and_validation_witness :
    Vector3D.init (.int 2) (.float (1 / 2)) (.int (-3)) =
      .ok ⟨2, 1 / 2, -3⟩ ∧
    Vector3D.init (.str "a") (.int 0) (.int 0) =
      .error "expected type Union[int, float] for Vector3D.x but got str instead" := by
  constructor
  · exact (vector3D_construction_coercion_and_validation
      (.int 2) (.float (1 / 2)) (.int (-3))).1 rfl rfl rfl
  · have h := (vector3D_construction_coercion_and_validation
      (.str "a") (.int 0) (.int 0)).2.1 rfl
    simpa [typeErrorMsg, PyVal.typeName] using h

/-- Claim C4: `Rotator3D.__init__` interprets its inputs as degrees,
converts each with `np.deg2rad` and stores the radian results through the
inherited (validating, float-coercing) component setters; in particular
`Rotator3D(180, 0, 90)` stores components `(π, 0, π/2)`. -/
theorem rotator3D_degrees_to_radians :
    (∀ x y z : ℝ, Rotator3D.initReal x y z = ⟨deg2rad x, deg2rad y, deg2rad z⟩) ∧
    Rotator3D.initReal 180 0 90 = ⟨Real.pi, 0, Real.pi / 2⟩ := by
  refine ⟨fun x y z => rfl, ?_⟩
  simp only [Rotator3D.initReal, deg2rad, Rotator3DReal.mk.injEq]
  refine ⟨by ring, by ring, by ring⟩

/-- Claim C4 witness: the stored components of `Rotator3D(180, 0, 90)`
are exactly `(π, 0, π/2)` in the real-valued model. -/
theorem rotator3D_degrees_to_radians_witness :
    Rotator3D.initReal 180 0 90 = ⟨Real.pi, 0, Real.pi / 2⟩ :=
  rotator3D_degrees_to_radians.2

/-- Claim C5 counterexample: the claim says booleans are rejected wherever
numbers are expected, but Python's `bool` is a subclass of `int`, so
`isinstance(True, (int, float))` holds: setting `x = True` on
`Vector3D(0, 0, 0)` succeeds and stores `float(True) = 1.0` instead of
raising; likewise the `timestep` setter accepts `True`. -/
theorem numeric_slots_reject_bool_counterexample :
    (Vector3D.mk 0 0 0).setX (PyVal.bool true) = .ok (Vector3D.mk 1 0 0) ∧
    stats0.set_timestep (PyVal.bool true) =
      .ok { stats0 with timestep := PyVal.bool true } := by
  constructor <;> rfl

/-- Claim C5 amended: booleans are accepted, not rejected, by every
numeric validation (`bool` being a subclass of `int`): the component
setters store `float(b)`, scalar multiplication scales by `float(b)`, the
`timestep` setter stores the boolean itself, the `distance_to_end` setter
stores `float(b)`, and `add_data` accepts a boolean speed and appends it. -/
theorem numeric_slots_accept_bool :
    ∀ (v : Vector3D) (s : TrackStatistics) (r : Rotator3D) (b : Bool),
      v.setX (.bool b) = .ok { v with x := if b then 1 else 0 } ∧
      v.setY (.bool b) = .ok { v with y := if b then 1 else 0 } ∧
      v.setZ (.bool b) = .ok { v with z := if b then 1 else 0 } ∧
      v.mul (.bool b) = .ok ⟨v.x * (if b then 1 else 0),
        v.y * (if b then 1 else 0), v.z * (if b then 1 else 0)⟩ ∧
      s.set_timestep (.bool b) = .ok { s with timestep := .bool b } ∧
      s.set_distance_to_end (.bool b) =
        .ok { s with distance_to_end := .float (if b then 1 else 0) } ∧
      s.add_data (.vec v) (.rot r) (.bool b) =
        .ok { s with data := s.data ++ [(.vec v, .rot r, .bool b)] } := by
  intro v s r b
  refine ⟨?_, ?_, ?_, ?_, ?_, ?_, ?_⟩ <;>
    simp [Vector3D.setX, Vector3D.setY, Vector3D.setZ, Vector3D.mul,
      TrackStatistics.set_timestep, TrackStatistics.set_distance_to_end,
      TrackStatistics.add_data, PyVal.isInstIntFloat, PyVal.isInstVector3D,
      PyVal.isInstRotator3D, PyVal.toFloat]

/-- Claim C6 counterexample: the claim says the `timestep` setter
normalizes to floating point like the other numeric setters, but the
source stores `value` itself without `float(...)`: setting the integer
`5` reads back as the integer `5`, not the float `5.0`. -/
theorem timestep_setter_no_float_coercion_counterexample :
    stats0.set_timestep (PyVal.int 5) =
      .ok { stats0 with timestep := PyVal.int 5 } ∧
    decide (PyVal.int 5 = PyVal.float 5) = false := by
  exact ⟨rfl, by decide⟩

/-- Claim C6 amended: the `Vector3D` component setters and the
`distance_to_end` setter coerce an assigned integer to floating point,
but the `timestep` setter stores the value unchanged, so an integer
timestep reads back as an integer rather than a float. -/
theorem setters_float_coercion_amended :
    ∀ (v : Vector3D) (s : TrackStatistics) (n : ℤ),
      v.setX (.int n) = .ok { v with x := (n : ℚ) } ∧
      v.setY (.int n) = .ok { v with y := (n : ℚ) } ∧
      v.setZ (.int n) = .ok { v with z := (n : ℚ) } ∧
      s.set_distance_to_end (.int n) =
        .ok { s with distance_to_end := .float (n : ℚ) } ∧
      s.set_timestep (.int n) = .ok { s with timestep := .int n } := by
  intro v s n
  refine ⟨?_, ?_, ?_, ?_, ?_⟩ <;>
    simp [Vector3D.setX, Vector3D.setY, Vector3D.setZ,
      TrackStatistics.set_distance_to_end, TrackStatistics.set_timestep,
      PyVal.isInstIntFloat, PyVal.toFloat]

unseal Rat.add Rat.sub in
/-- Claim C7 counterexample: under IEEE-754 binary64 rounding the
universal round trip fails. With `v1 = Vector3D(0.1, 0, 0)` and `v2 =
Vector3D(0.2, 0, 0)` (a decimal literal denotes the nearest binary64
value), `(v1 + v2) - v2 == v1` returns `False`: `0.1` is the double
`3602879701896397/2^55` and `0.2` is `3602879701896397/2^54`, their
exact sum rounds up (a tie, to even) to `1351079888211149/2^52`, the
Python value `0.30000000000000004`, and subtracting `0.2` gives exactly
`1801439850948199/2^54`, the Python value `0.10000000000000003`, which
differs from `0.1`. -/
theorem add_sub_round_trip_counterexample :
    (((Vector3D.mk (fl (mkRat 1 10)) 0 0).add
          (Vector3D.mk (fl (mkRat 2 10)) 0 0)).sub
        (Vector3D.mk (fl (mkRat 2 10)) 0 0)).beq
      (Vector3D.mk (fl (mkRat 1 10)) 0 0) = false ∧
    fl (mkRat 1 10) = mkRat 3602879701896397 (2 ^ 55) ∧
    fl (mkRat 2 10) = mkRat 3602879701896397 (2 ^ 54) ∧
    (Vector3D.mk (fl (mkRat 1 10)) 0 0).add (Vector3D.mk (fl (mkRat 2 10)) 0 0) =
      ⟨mkRat 1351079888211149 (2 ^ 52), 0, 0⟩ ∧
    ((Vector3D.mk (fl (mkRat 1 10)) 0 0).add
          (Vector3D.mk (fl (mkRat 2 10)) 0 0)).sub
        (Vector3D.mk (fl (mkRat 2 10)) 0 0) =
      ⟨mkRat 1801439850948199 (2 ^ 54), 0, 0⟩ :=
  ⟨by decide, by decide, by decide, by decide, by decide⟩

/-- Claim C7 amended: the round trip `(v1 + v2) - v2 == v1` does not hold
for all vectors; it holds whenever no rounding occurs, i.e. when each
component of `v1` is itself a binary64 value (a fixed point of `fl`) and
each component sum of `v1 + v2` is exactly representable: then the
addition and the subtraction are exact and the round trip returns the
very vector `v1`, which `__eq__` confirms. -/
theorem add_sub_round_trip_exact :
    ∀ (v1 v2 : Vector3D),
      fl v1.x = v1.x → fl v1.y = v1.y → fl v1.z = v1.z →
      fl (v1.x + v2.x) = v1.x + v2.x →
      fl (v1.y + v2.y) = v1.y + v2.y →
      fl (v1.z + v2.z) = v1.z + v2.z →
      ((v1.add v2).sub v2).beq v1 = true ∧ (v1.add v2).sub v2 = v1 := by
  intro v1 v2 hx hy hz hsx hsy hsz
  have h : (v1.add v2).sub v2 = v1 := by
    obtain ⟨a, b, c⟩ := v1
    obtain ⟨d, e, f⟩ := v2
    simp only [Vector3D.add, Vector3D.sub] at *
    simp only [hsx, hsy, hsz, add_sub_cancel_right, hx, hy, hz]
  refine ⟨?_, h⟩
  simp [h, Vector3D.beq]

unseal Rat.add Rat.sub in
/-- Claim C7 amended witness: small integer components are exact binary64
values and their sums round to themselves, so `(⟨1, 2, 3⟩ + ⟨4, 5, 6⟩) -
⟨4, 5, 6⟩` returns exactly `⟨1, 2, 3⟩` and compares equal under `__eq__`. -/
theorem add_sub_round_trip_exact_witness :
    ((Vector3D.mk 1 2 3).add ⟨4, 5, 6⟩ |>.sub ⟨4, 5, 6⟩).beq ⟨1, 2, 3⟩ = true ∧
    ((Vector3D.mk 1 2 3).add ⟨4, 5, 6⟩ |>.sub ⟨4, 5, 6⟩) = ⟨1, 2, 3⟩ :=
  add_sub_round_trip_exact ⟨1, 2, 3⟩ ⟨4, 5, 6⟩ (by decide) (by decide) (by decide)
    (by decide) (by decide) (by decide)

/-- Claim C8: the `is_completed` setter stores a strict boolean unchanged
and raises a type-mismatch error on every non-boolean value — in
particular on the integers `0` and `1`, which are not coerced (an
`.error` result carries no mutated state, so the stored flag is
untouched). -/
theorem is_completed_setter_strict_bool :
    ∀ (s : TrackStatistics) (b : Bool) (value : PyVal),
      s.set_is_completed (.bool b) = .ok { s with is_completed := b } ∧
      (value.isInstBool = false →
        s.set_is_completed value =
          .error (typeErrorMsg "bool" "TrackStatistics" "is_completed" value)) := by
  intro s b value
  refine ⟨rfl, fun h => ?_⟩
  cases value <;> simp_all [TrackStatistics.set_is_completed, PyVal.isInstBool]

/-- Claim C8 witness: setting `is_completed = 1` (integer) raises the
type-mismatch error, setting `is_completed = 0` likewise, and a strict
boolean is stored unchanged. -/
theorem is_completed_setter_strict_bool_witness :
    stats0.set_is_completed (.int 1) =
      .error "expected type bool for TrackStatistics.is_completed but got int instead" ∧
    stats0.set_is_completed (.int 0) =
      .error "expected type bool for TrackStatistics.is_completed but got int instead" ∧
    stats0.set_is_completed (.bool true) =
      .ok { stats0 with is_completed := true } := by
  refine ⟨?_, ?_, ?_⟩
  · simpa [typeErrorMsg, PyVal.typeName] using
      (is_completed_setter_strict_bool stats0 true (.int 1)).2 rfl
  · simpa [typeErrorMsg, PyVal.typeName] using
      (is_completed_setter_strict_bool stats0 true (.int 0)).2 rfl
  · exact (is_completed_setter_strict_bool stats0 true (.int 1)).1

/-- Claim C9: the position check of `add_data` is a subtype check —
`isinstance(position, Vector3D)` holds for every `Rotator3D` instance, so
a rotator passed in the position slot (with a valid rotation and numeric
speed) is accepted and the triple is appended with the rotator in the
position slot. -/
theorem add_data_position_accepts_rotator :
    ∀ (s : TrackStatistics) (r r2 : Rotator3D) (speed : PyVal),
      speed.isInstIntFloat = true →
      s.add_data (.rot r) (.rot r2) speed =
        .ok { s with data := s.data ++ [(.rot r, .rot r2, speed)] } := by
  intro s r r2 speed h
  simp [TrackStatistics.add_data, PyVal.isInstVector3D, PyVal.isInstRotator3D, h]

/-- Claim C9 witness: a concrete rotator in the position slot is accepted
and appended. -/
theorem add_data_position_accepts_rotator_witness :
    stats0.add_data (.rot ⟨1, 2, 3⟩) (.rot ⟨0, 0, 0⟩) (.int 5) =
      .ok { stats0 with data := [(.rot ⟨1, 2, 3⟩, .rot ⟨0, 0, 0⟩, .int 5)] } := by
  exact add_data_position_accepts_rotator stats0 ⟨1, 2, 3⟩ ⟨0, 0, 0⟩ (.int 5) rfl

/-- Claim C10: construction assigns the Python int `0` directly to
`_distance_to_end`, bypassing the setter, so immediately after
construction `distance_to_end` reads back as the integer `0` (not a
float), whereas every assignment through the setter stores a float. -/
theorem distance_to_end_initial_int_bypasses_setter :
    ∀ (wps : List Vector3D) (ts : PyVal) (s : TrackStatistics) (n : ℤ),
      (ts.isInstIntFloat = true →
        TrackStatistics.init wps ts =
          .ok { timestep := ts, waypoints := wps, is_completed := false,
                distance_to_end := PyVal.int 0, data := [] }) ∧
      s.set_distance_to_end (.int n) =
        .ok { s with distance_to_end := .float (n : ℚ) } ∧
      (∀ q : ℚ, PyVal.int 0 ≠ PyVal.float q) := by
  intro wps ts s n
  refine ⟨fun h => ?_, ?_, fun q => by simp⟩
  · simp [TrackStatistics.init, h]
  · simp [TrackStatistics.set_distance_to_end, PyVal.isInstIntFloat, PyVal.toFloat]

/-- Claim C10 witness: constructing with timestep `0.1` and no waypoints
yields `distance_to_end = 0` stored as an integer, and a subsequent
setter assignment of the integer `3` stores the float `3.0`. -/
theorem distance_to_end_initial_int_bypasses_setter_witness :
    TrackStatistics.init [] (.float (1 / 10)) =
      .ok { timestep := .float (1 / 10), waypoints := [], is_completed := false,
            distance_to_end := PyVal.int 0, data := [] } ∧
    stats0.set_distance_to_end (.int 3) =
      .ok { stats0 with distance_to_end := .float 3 } := by
  constructor
  · exact (distance_to_end_initial_int_bypasses_setter [] (.float (1 / 10))
      stats0 3).1 rfl
  · have h := (distance_to_end_initial_int_bypasses_setter [] (.float (1 / 10))
      stats0 3).2.1
    simpa using h

end SDC
